import Mathlib

/-
Verification of the LUNA r0.3 platform descriptor
(src/luna/gateware/platform/luna_r0_3.py).

Shallow embedding: the toolchain orchestration methods
(toolchain_prepare, toolchain_program, toolchain_flash, toolchain_erase)
are modelled as pure functions that return a result together with the
trace of externally visible events they perform (connection opens,
sub-channel acquire/release, hardware-mutating calls, soft resets).
Failures of the external services (JTAG configure, flash program,
flash erase, the controller-gateware precondition repair) are injected
through an explicit fault-specification record; Python `with` blocks
are translated by emitting the release event on every exit of the
block, normal or exceptional, exactly as the context-manager protocol
guarantees.
-/

namespace LunaR03

/-- Externally visible events performed by the toolchain orchestration
methods, in program order. -/
inductive Event where
  | connectionOpen                       -- ApolloDebugger()
  | ensureFlashGateware                  -- ensure_flash_gateware_loaded(...)
  | artifactGet (key : String)           -- products.get(key)
  | acquireJtag                          -- enter `with debugger.jtag`
  | releaseJtag                          -- exit  `with debugger.jtag`
  | acquireFlash                         -- enter `with debugger.flash`
  | releaseFlash                         -- exit  `with debugger.flash`
  | configure                            -- programmer.configure(bitstream)
  | flashProgram                         -- flash.program(bitstream)
  | flashErase                           -- flash.erase()
  | softReset                            -- debugger.soft_reset()
deriving DecidableEq, Repr

/-- Errors the orchestration methods can surface. -/
inductive TError where
  | artifactNotFound
  | programError
  | flashError
  | preconditionRepairFailed
deriving DecidableEq, Repr

/-- Fault injection for the external hardware services: which of the
attempted external calls raises. -/
structure Faults where
  configureFails : Bool
  flashProgramFails : Bool
  eraseFails : Bool
  ensureFails : Bool
deriving DecidableEq, Repr

/-- The external artifact store (`products`): build names map to
bitstream contents, absent keys resolve to `none`. -/
abbrev BuildProducts := String → Option String

/-- Embedding of `toolchain_program(self, products, name)`:

    debugger = ApolloDebugger()
    bitstream = products.get("{}.bit".format(name))
    with debugger.jtag as jtag:
        programmer = ECP5_JTAGProgrammer(jtag)
        programmer.configure(bitstream)

The debug connection is opened before the artifact is resolved; the
JTAG sub-channel is scoped, so its release fires even when the
configure call raises. -/
def toolchain_program (flt : Faults) (products : BuildProducts)
    (nm : String) : Except TError Unit × List Event :=
  let key := nm ++ ".bit"
  match products key with
  | none =>
      (Except.error TError.artifactNotFound,
       [Event.connectionOpen, Event.artifactGet key])
  | some _ =>
      if flt.configureFails then
        (Except.error TError.programError,
         [Event.connectionOpen, Event.artifactGet key, Event.acquireJtag,
          Event.configure, Event.releaseJtag])
      else
        (Except.ok (),
         [Event.connectionOpen, Event.artifactGet key, Event.acquireJtag,
          Event.configure, Event.releaseJtag])

/-- Embedding of `toolchain_flash(self, products, name="top")`:

    debugger = ApolloDebugger()
    ensure_flash_gateware_loaded(debugger, platform=self.__class__())
    bitstream = products.get("{}.bit".format(name))
    with debugger.flash as flash:
        flash.program(bitstream)
    debugger.soft_reset()

The soft reset sits after the `with` block, so it is skipped whenever
an earlier step raises; the flash sub-channel release fires on both
exits of the block. -/
def toolchain_flash (flt : Faults) (products : BuildProducts)
    (nm : String) : Except TError Unit × List Event :=
  let key := nm ++ ".bit"
  if flt.ensureFails then
    (Except.error TError.preconditionRepairFailed,
     [Event.connectionOpen, Event.ensureFlashGateware])
  else
    match products key with
    | none =>
        (Except.error TError.artifactNotFound,
         [Event.connectionOpen, Event.ensureFlashGateware,
          Event.artifactGet key])
    | some _ =>
        if flt.flashProgramFails then
          (Except.error TError.flashError,
           [Event.connectionOpen, Event.ensureFlashGateware,
            Event.artifactGet key, Event.acquireFlash, Event.flashProgram,
            Event.releaseFlash])
        else
          (Except.ok (),
           [Event.connectionOpen, Event.ensureFlashGateware,
            Event.artifactGet key, Event.acquireFlash, Event.flashProgram,
            Event.releaseFlash, Event.softReset])

/-- The Python signature of `toolchain_flash` defaults `name` to
`"top"`; this is the call with the parameter omitted. -/
def toolchain_flash_default_name (flt : Faults)
    (products : BuildProducts) : Except TError Unit × List Event :=
  toolchain_flash flt products "top"

/-- Embedding of `toolchain_erase(self)`:

    debugger = ApolloDebugger()
    ensure_flash_gateware_loaded(debugger, platform=self.__class__())
    with debugger.flash as flash:
        flash.erase()
    debugger.soft_reset()
-/
def toolchain_erase (flt : Faults) : Except TError Unit × List Event :=
  if flt.ensureFails then
    (Except.error TError.preconditionRepairFailed,
     [Event.connectionOpen, Event.ensureFlashGateware])
  else
    if flt.eraseFails then
      (Except.error TError.flashError,
       [Event.connectionOpen, Event.ensureFlashGateware, Event.acquireFlash,
        Event.flashErase, Event.releaseFlash])
    else
      (Except.ok (),
       [Event.connectionOpen, Event.ensureFlashGateware, Event.acquireFlash,
        Event.flashErase, Event.releaseFlash, Event.softReset])

/-- Number of events of a trace satisfying a discriminator. -/
def countEv (p : Event → Bool) (tr : List Event) : Nat :=
  (tr.filter p).length

def isConnectionOpen : Event → Bool
  | Event.connectionOpen => true
  | _ => false

def isEnsure : Event → Bool
  | Event.ensureFlashGateware => true
  | _ => false

def isArtifactGetAt (key : String) : Event → Bool
  | Event.artifactGet k => k == key
  | _ => false

def isAcquireJtag : Event → Bool
  | Event.acquireJtag => true
  | _ => false

def isReleaseJtag : Event → Bool
  | Event.releaseJtag => true
  | _ => false

def isAcquireFlash : Event → Bool
  | Event.acquireFlash => true
  | _ => false

def isReleaseFlash : Event → Bool
  | Event.releaseFlash => true
  | _ => false

def isConfigure : Event → Bool
  | Event.configure => true
  | _ => false

def isFlashProgram : Event → Bool
  | Event.flashProgram => true
  | _ => false

def isFlashErase : Event → Bool
  | Event.flashErase => true
  | _ => false

def isSoftReset : Event → Bool
  | Event.softReset => true
  | _ => false

/-- A trace is balanced when every acquired sub-channel has been
released: acquire and release counts agree per sub-channel. -/
def balancedChannels (tr : List Event) : Prop :=
  countEv isAcquireJtag tr = countEv isReleaseJtag tr ∧
  countEv isAcquireFlash tr = countEv isReleaseFlash tr

/-- `true` iff every flash sub-channel acquisition and every flash
hardware operation (program or erase) in the trace is preceded by the
controller precondition-repair step. -/
def ensureBeforeFlashOps : (tr : List Event) → Bool :=
  go false
where
  go (seen : Bool) : List Event → Bool
    | [] => true
    | Event.ensureFlashGateware :: rest => go true rest
    | Event.acquireFlash :: rest => seen && go seen rest
    | Event.flashProgram :: rest => seen && go seen rest
    | Event.flashErase :: rest => seen && go seen rest
    | _ :: rest => go seen rest

/-- Python `TypeError` raised by `f(**overrides, **kwargs)` when the
two keyword sets bind the same key. -/
inductive KwError where
  | duplicateKeyword
deriving DecidableEq, Repr

/-- The invocation handed to the external toolchain by
`super().toolchain_prepare(fragment, name, **overrides, **kwargs)`:
the fragment, the build name, and the merged keyword options. -/
structure ToolchainInvocation where
  fragment : String
  buildName : String
  options : List (String × String)
deriving DecidableEq, Repr

/-- The board-mandated `overrides` dict of `toolchain_prepare`:
`{'ecppack_opts': '--compress --freq 38.8'}`. -/
def ecppack_overrides : List (String × String) :=
  [("ecppack_opts", "--compress --freq 38.8")]

/-- Embedding of `toolchain_prepare(self, fragment, name, **kwargs)`:

    overrides = { 'ecppack_opts': '--compress --freq 38.8' }
    return super().toolchain_prepare(fragment, name, **overrides, **kwargs)

Caller options are a keyword dict (association list with pairwise
distinct keys in Python); unpacking `**overrides, **kwargs` at a call
site raises `TypeError: got multiple values for keyword argument` when
the two dicts share a key, and otherwise passes the union to the
vendor implementation. -/
def toolchain_prepare (fragment : String) (nm : String)
    (kwargs : List (String × String)) :
    Except KwError ToolchainInvocation :=
  if kwargs.any (fun kv => ecppack_overrides.any (fun ov => ov.1 == kv.1))
  then Except.error KwError.duplicateKeyword
  else Except.ok ⟨fragment, nm, ecppack_overrides ++ kwargs⟩

/-- An environment: variable names map to values, unset names to
`none`. -/
abbrev Env := String → Option String

/-- Embedding of `os.getenv(key, default)`. -/
def os_getenv (env : Env) (key : String) (dflt : String) : String :=
  (env key).getD dflt

/-- Point update of an environment, modelling a mutation of the
process environment after descriptor construction. -/
def setEnv (env : Env) (key : String) (v : String) : Env :=
  fun k => if k = key then some v else env k

/-- The scalar identity fields of the class body of
`LUNAPlatformRev0D3` that are computed when the class is constructed. -/
structure PlatformDescriptor where
  device : String
  package : String
  speed : String
  default_clk : String
deriving DecidableEq, Repr

/-- Embedding of the class-body construction of `LUNAPlatformRev0D3`:

    device      = "LFE5U-12F"
    package     = "BG256"
    speed       = os.getenv("LUNA_SPEED_GRADE", "8")
    default_clk = "clk_60MHz"

`speed` captures the value of the environment variable at
construction time. -/
def mkLUNAPlatformRev0D3 (env : Env) : PlatformDescriptor :=
  ⟨"LFE5U-12F", "BG256", os_getenv env "LUNA_SPEED_GRADE" "8",
   "clk_60MHz"⟩

/-- Instrumented construction: also returns the list of environment
variables read while the class body runs. The single `os.getenv` call
on the `speed` line is the only environment access in the class body. -/
def mkLUNAPlatformRev0D3Reads (env : Env) :
    PlatformDescriptor × List String :=
  (mkLUNAPlatformRev0D3 env, ["LUNA_SPEED_GRADE"])

/-- The speed grade an observer reads off the descriptor after the
environment has been changed (key set to v) following construction:
the stored field of the already-constructed value. -/
def speedObservedAfterEnvChange (env : Env) (key v : String) : String :=
  let d := mkLUNAPlatformRev0D3 env
  let _ := setEnv env key v
  d.speed

/-- A named sub-part of a resource bound to physical pins
(`Subsignal(name, Pins(...))`; polarity inversion and directions do
not affect which pins are claimed and are not tracked). -/
structure Subsignal where
  sname : String
  spins : List String
deriving DecidableEq, Repr

/-- A `Resource(name, number, ...)` entry, reduced to the physical
pins its subsignals claim. A single-signal resource such as
`Resource("clk_60MHz", 0, Pins("A8", dir="i"), ...)` is its one
anonymous subsignal. -/
structure Resource where
  rname : String
  rnumber : Nat
  subsignals : List Subsignal
deriving DecidableEq, Repr

/-- A `Connector(kind, number, "pin pin - ...")` entry. -/
structure Connector where
  ckind : String
  cnumber : Nat
  pinstr : String
deriving DecidableEq, Repr

/-- Splits a character list into maximal space-free words. -/
def splitWordsAux (acc : List Char) : List Char → List String
  | [] => if acc.isEmpty then [] else [String.mk acc.reverse]
  | c :: rest =>
      if c = ' ' then
        if acc.isEmpty then splitWordsAux [] rest
        else String.mk acc.reverse :: splitWordsAux [] rest
      else splitWordsAux (c :: acc) rest

/-- Whitespace splitting of a pin string, as `str.split()` performs it
on the well-formed single-space-separated strings of the table. -/
def splitWords (s : String) : List String :=
  splitWordsAux [] s.data

/-- `Pins("A11 B10 ...")`: physical pin names, whitespace-separated. -/
def Pins (s : String) : List String :=
  splitWords s

/-- `PinsN(...)`: identical pin set; only the polarity differs. -/
def PinsN (s : String) : List String :=
  Pins s

/-- `DiffPairs(p, n)`: a differential pair claims both pins. -/
def DiffPairs (p : String) (n : String) : List String :=
  [p, n]

/-- `UARTResource(num, rx=..., tx=..., ...)`. -/
def UARTResource (num : Nat) (rx : String) (tx : String) : Resource :=
  ⟨"uart", num, [⟨"rx", Pins rx⟩, ⟨"tx", Pins tx⟩]⟩

/-- `LEDResources(pins="...")`: one numbered `led` resource per pin. -/
def LEDResources (pinstr : String) : List Resource :=
  (List.enum (Pins pinstr)).map
    (fun pi => ⟨"led", pi.1, [⟨"", [pi.2]⟩]⟩)

/-- `ULPIResource(name, num, data=..., clk=..., dir=..., nxt=...,
stp=..., rst=..., ...)`. -/
def ULPIResource (nm : String) (num : Nat) (data : String)
    (clk : String) (dir : String) (nxt : String) (stp : String)
    (rst : String) : Resource :=
  ⟨nm, num,
   [⟨"data", Pins data⟩, ⟨"clk", Pins clk⟩, ⟨"dir", Pins dir⟩,
    ⟨"nxt", Pins nxt⟩, ⟨"stp", Pins stp⟩, ⟨"rst", Pins rst⟩]⟩

/-- The `resources` table of `LUNAPlatformRev0D3`, entry for entry. -/
def resources : List Resource :=
  [⟨"clk_60MHz", 0, [⟨"", Pins "A8"⟩]⟩,
   ⟨"spi_flash", 0,
    [⟨"sdi", Pins "T8"⟩, ⟨"sdo", Pins "T7"⟩, ⟨"cs", PinsN "N8"⟩]⟩,
   UARTResource 0 "R14" "T14",
   ⟨"debug_spi", 0,
    [⟨"sck", Pins "R13"⟩, ⟨"sdi", Pins "P13"⟩, ⟨"sdo", Pins "P11"⟩,
     ⟨"cs", PinsN "T13"⟩]⟩] ++
  LEDResources "T15 R15 R16 P15 P16 P14" ++
  [ULPIResource "sideband_phy" 0 "R1 P3 P1 P2 N1 M2 M1 L2" "P4" "T2"
     "R2" "R3" "T3",
   ULPIResource "host_phy" 0 "F1 F2 E1 E2 D1 E3 C1 C2" "J1" "G1"
     "G2" "H2" "J2",
   ULPIResource "target_phy" 0 "E16 F14 F16 F15 G16 G15 H15 J16" "C15"
     "D16" "E15" "D14" "C16",
   ⟨"power_a_port", 0, [⟨"", Pins "C14"⟩]⟩,
   ⟨"power_c_port", 0, [⟨"", Pins "F13"⟩]⟩,
   ⟨"pass_through_vbus", 0, [⟨"", Pins "B16"⟩]⟩,
   ⟨"target_c_to_a_fault", 0, [⟨"", Pins "F12"⟩]⟩,
   ⟨"target_a_to_c_fault", 0, [⟨"", Pins "E14"⟩]⟩,
   ⟨"target_5v_to_a_fault", 0, [⟨"", Pins "B15"⟩]⟩,
   ⟨"ram", 0,
    [⟨"clk", DiffPairs "B14" "A15"⟩,
     ⟨"dq", Pins "A11 B10 B12 A12 B11 A10 B9 A9"⟩,
     ⟨"rwds", Pins "A13"⟩, ⟨"cs", PinsN "A14"⟩,
     ⟨"reset", PinsN "B13"⟩]⟩,
   ⟨"user_io", 0, [⟨"", Pins "C3"⟩]⟩,
   ⟨"user_io", 1, [⟨"", Pins "D3"⟩]⟩]

/-- The `connectors` table of `LUNAPlatformRev0D3`. -/
def connectors : List Connector :=
  [⟨"pmod", 0, "A3 A4 A5 A6 - - C6 B6 C7 B7 - -"⟩,
   ⟨"pmod", 1, "M5 N5 M4 N3 - - L4 L5 K4 K5 - -"⟩]

/-- Physical pins claimed by a resource. -/
def resourcePins (r : Resource) : List String :=
  r.subsignals.flatMap Subsignal.spins

/-- Physical pins of a connector: entries of its pin list that are not
the `-` gap marker. -/
def connectorPins (c : Connector) : List String :=
  (splitWords c.pinstr).filter (fun p => p ≠ "-")

/-- Every physical pin appearance across all resources and all
connectors, one list element per appearance. -/
def allPins : List String :=
  resources.flatMap resourcePins ++ connectors.flatMap connectorPins

/-- Base-256 character code of a pin name; injective on strings of
nonzero characters, used to discharge `Nodup` by fast kernel
computation on naturals. -/
def pinCode (s : String) : Nat :=
  s.data.foldl (fun a c => a * 256 + c.toNat) 0

/-- Helper: whether a prepare result returned an invocation. -/
def returnsInvocation : Except KwError ToolchainInvocation → Bool
  | Except.ok _ => true
  | Except.error _ => false

/-- C1 counterexample: with an empty artifact store, `program` does
fail with `ArtifactNotFound`, but the debug connection has already
been opened: the connection-open count is 1, not 0 as claimed. -/
theorem program_missing_artifact_opens_connection :
    (toolchain_program ⟨false, false, false, false⟩ (fun _ => none)
        "top").1 = Except.error TError.artifactNotFound ∧
    countEv isConnectionOpen
      (toolchain_program ⟨false, false, false, false⟩ (fun _ => none)
        "top").2 ≠ 0 := by
  exact ⟨rfl, by decide⟩

/-- C1 (amended): when the key `name ++ ".bit"` is absent from the
artifact store, `program` fails with `ArtifactNotFound`, never
acquires the JTAG sub-channel and never issues a configure call, but
the debug connection is opened exactly once, before artifact
resolution. -/
theorem program_missing_artifact_behavior (flt : Faults)
    (products : BuildProducts) (nm : String)
    (h : products (nm ++ ".bit") = none) :
    (toolchain_program flt products nm).1 =
      Except.error TError.artifactNotFound ∧
    countEv isAcquireJtag (toolchain_program flt products nm).2 = 0 ∧
    countEv isConfigure (toolchain_program flt products nm).2 = 0 ∧
    countEv isConnectionOpen (toolchain_program flt products nm).2 = 1 := by
  simp [toolchain_program, h, countEv, isAcquireJtag, isConfigure,
    isConnectionOpen]

/-- C1 witness. -/
theorem program_missing_artifact_behavior_witness :
    (toolchain_program ⟨false, false, false, false⟩ (fun _ => none)
        "top").1 = Except.error TError.artifactNotFound ∧
    countEv isAcquireJtag
      (toolchain_program ⟨false, false, false, false⟩ (fun _ => none)
        "top").2 = 0 ∧
    countEv isConfigure
      (toolchain_program ⟨false, false, false, false⟩ (fun _ => none)
        "top").2 = 0 ∧
    countEv isConnectionOpen
      (toolchain_program ⟨false, false, false, false⟩ (fun _ => none)
        "top").2 = 1 :=
  program_missing_artifact_behavior ⟨false, false, false, false⟩
    (fun _ => none) "top" rfl

/-- C2 counterexample: a caller option set that binds the mandated key
`ecppack_opts` makes `prepare` raise the duplicate-keyword `TypeError`
of `**`-unpacking, so no invocation at all is returned for that caller
option set — the claim demands one containing the mandated options. -/
theorem prepare_conflicting_caller_option_fails :
    toolchain_prepare "fragment" "top"
        [("ecppack_opts", "--no-compress")] =
      Except.error KwError.duplicateKeyword ∧
    returnsInvocation
      (toolchain_prepare "fragment" "top"
        [("ecppack_opts", "--no-compress")]) = false := by
  exact ⟨rfl, rfl⟩

/-- C2 (amended): when the caller options do not bind the mandated key,
the returned invocation carries the board-mandated packer options
(compression and configuration-clock frequency 38.8) and the caller
cannot override them; when the caller binds the mandated key, the call
fails with a duplicate-keyword error instead of overriding. -/
theorem prepare_mandated_options_behavior (frag : String) (nm : String)
    (kwargs : List (String × String)) :
    (kwargs.any
        (fun kv => ecppack_overrides.any (fun ov => ov.1 == kv.1)) =
          false →
      ∃ inv, toolchain_prepare frag nm kwargs = Except.ok inv ∧
        inv.options.lookup "ecppack_opts" =
          some "--compress --freq 38.8") ∧
    (kwargs.any
        (fun kv => ecppack_overrides.any (fun ov => ov.1 == kv.1)) =
          true →
      toolchain_prepare frag nm kwargs =
        Except.error KwError.duplicateKeyword) := by
  constructor
  · intro h
    refine ⟨⟨frag, nm, ecppack_overrides ++ kwargs⟩, ?_, ?_⟩
    · simp [toolchain_prepare, h]
    · simp [ecppack_overrides, List.lookup]
  · intro h
    simp [toolchain_prepare, h]

/-- C2 witness. -/
theorem prepare_mandated_options_behavior_witness :
    (∃ inv,
      toolchain_prepare "fragment" "top" [("nextpnr_opts", "--seed 0")] =
        Except.ok inv ∧
      inv.options.lookup "ecppack_opts" =
        some "--compress --freq 38.8") ∧
    toolchain_prepare "fragment" "top" [("ecppack_opts", "--fast")] =
      Except.error KwError.duplicateKeyword :=
  ⟨(prepare_mandated_options_behavior "fragment" "top"
      [("nextpnr_opts", "--seed 0")]).1 rfl,
   (prepare_mandated_options_behavior "fragment" "top"
      [("ecppack_opts", "--fast")]).2 rfl⟩

/-- C3: `program` issues zero soft resets on every execution, success
or failure; `flash` and `erase` issue exactly one soft reset on every
successful execution. -/
theorem soft_reset_discipline (flt : Faults) (products : BuildProducts)
    (nm : String) :
    countEv isSoftReset (toolchain_program flt products nm).2 = 0 ∧
    ((toolchain_flash flt products nm).1 = Except.ok () →
      countEv isSoftReset (toolchain_flash flt products nm).2 = 1) ∧
    ((toolchain_erase flt).1 = Except.ok () →
      countEv isSoftReset (toolchain_erase flt).2 = 1) := by
  obtain ⟨cf, pf, ef, nf⟩ := flt
  cases cf <;> cases pf <;> cases ef <;> cases nf <;>
    cases h : products (nm ++ ".bit") <;>
    simp [toolchain_program, toolchain_flash, toolchain_erase, h,
      countEv, isSoftReset]

/-- C3 witness. -/
theorem soft_reset_discipline_witness :
    countEv isSoftReset
      (toolchain_program ⟨false, false, false, false⟩
        (fun _ => some "bits") "top").2 = 0 ∧
    countEv isSoftReset
      (toolchain_flash ⟨false, false, false, false⟩
        (fun _ => some "bits") "top").2 = 1 ∧
    countEv isSoftReset
      (toolchain_erase ⟨false, false, false, false⟩).2 = 1 := by
  have h := soft_reset_discipline ⟨false, false, false, false⟩
    (fun _ => some "bits") "top"
  exact ⟨h.1, h.2.1 rfl, h.2.2 rfl⟩

/-- C4: when the flash-write step of `flash` fails, the `FlashError`
is surfaced to the caller, the flash sub-channel is acquired once and
released once, and no soft reset is issued. -/
theorem flash_write_failure_contained (cf ef : Bool)
    (products : BuildProducts) (nm : String) (bs : String)
    (h : products (nm ++ ".bit") = some bs) :
    (toolchain_flash ⟨cf, true, ef, false⟩ products nm).1 =
      Except.error TError.flashError ∧
    countEv isAcquireFlash
      (toolchain_flash ⟨cf, true, ef, false⟩ products nm).2 = 1 ∧
    countEv isReleaseFlash
      (toolchain_flash ⟨cf, true, ef, false⟩ products nm).2 = 1 ∧
    countEv isSoftReset
      (toolchain_flash ⟨cf, true, ef, false⟩ products nm).2 = 0 := by
  simp [toolchain_flash, h, countEv, isAcquireFlash, isReleaseFlash,
    isSoftReset]

/-- C4 witness. -/
theorem flash_write_failure_contained_witness :
    (toolchain_flash ⟨false, true, false, false⟩ (fun _ => some "bits")
        "top").1 = Except.error TError.flashError ∧
    countEv isAcquireFlash
      (toolchain_flash ⟨false, true, false, false⟩ (fun _ => some "bits")
        "top").2 = 1 ∧
    countEv isReleaseFlash
      (toolchain_flash ⟨false, true, false, false⟩ (fun _ => some "bits")
        "top").2 = 1 ∧
    countEv isSoftReset
      (toolchain_flash ⟨false, true, false, false⟩ (fun _ => some "bits")
        "top").2 = 0 :=
  flash_write_failure_contained false false (fun _ => some "bits") "top"
    "bits" rfl

/-- C5: on every exit path of `program`, `flash` and `erase` — all
fault injections and artifact stores included — the acquire and
release counts of each sub-channel agree, so no sub-channel is left
held open. -/
theorem channel_release_balanced (flt : Faults)
    (products : BuildProducts) (nm : String) :
    balancedChannels (toolchain_program flt products nm).2 ∧
    balancedChannels (toolchain_flash flt products nm).2 ∧
    balancedChannels (toolchain_erase flt).2 := by
  obtain ⟨cf, pf, ef, nf⟩ := flt
  cases cf <;> cases pf <;> cases ef <;> cases nf <;>
    cases h : products (nm ++ ".bit") <;>
    simp [toolchain_program, toolchain_flash, toolchain_erase, h,
      balancedChannels, countEv, isAcquireJtag, isReleaseJtag,
      isAcquireFlash, isReleaseFlash]

/-- C6: constructing the descriptor reads exactly one environment
variable (the speed-grade override `LUNA_SPEED_GRADE`), falls back to
the revision default "8" when it is unset, and a later change to the
environment leaves the already-constructed descriptor's speed grade at
its construction-time value. -/
theorem speed_grade_read_once_and_immutable (env : Env)
    (key v : String) :
    (mkLUNAPlatformRev0D3Reads env).2 = ["LUNA_SPEED_GRADE"] ∧
    (env "LUNA_SPEED_GRADE" = none →
      (mkLUNAPlatformRev0D3 env).speed = "8") ∧
    speedObservedAfterEnvChange env key v =
      (mkLUNAPlatformRev0D3 env).speed := by
  refine ⟨rfl, ?_, rfl⟩
  intro h
  simp [mkLUNAPlatformRev0D3, os_getenv, h]

/-- C6 witness. -/
theorem speed_grade_read_once_and_immutable_witness :
    (mkLUNAPlatformRev0D3Reads (fun _ => none)).2 =
      ["LUNA_SPEED_GRADE"] ∧
    (mkLUNAPlatformRev0D3 (fun _ => none)).speed = "8" ∧
    speedObservedAfterEnvChange (fun _ => none) "LUNA_SPEED_GRADE" "6" =
      (mkLUNAPlatformRev0D3 (fun _ => none)).speed := by
  have h := speed_grade_read_once_and_immutable (fun _ => none)
    "LUNA_SPEED_GRADE" "6"
  exact ⟨h.1, h.2.1 rfl, h.2.2⟩

/-- C7: in every execution of `flash` and of `erase`, the controller
precondition-repair step precedes every flash sub-channel acquisition
and every flash hardware operation. -/
theorem ensure_precedes_flash_operations (flt : Faults)
    (products : BuildProducts) (nm : String) :
    ensureBeforeFlashOps (toolchain_flash flt products nm).2 = true ∧
    ensureBeforeFlashOps (toolchain_erase flt).2 = true := by
  obtain ⟨cf, pf, ef, nf⟩ := flt
  cases cf <;> cases pf <;> cases ef <;> cases nf <;>
    cases h : products (nm ++ ".bit") <;>
    simp [toolchain_flash, toolchain_erase, h, ensureBeforeFlashOps,
      ensureBeforeFlashOps.go]

/-- C8: `program` resolves the build artifact under the key
`name ++ ".bit"` exactly once on every execution; `flash` does so on
every execution in which the precondition-repair step succeeds; and
omitting `flash`'s name parameter is the call with name `"top"`. -/
theorem artifact_key_format_and_default (flt : Faults)
    (products : BuildProducts) (nm : String) :
    countEv (isArtifactGetAt (nm ++ ".bit"))
      (toolchain_program flt products nm).2 = 1 ∧
    (flt.ensureFails = false →
      countEv (isArtifactGetAt (nm ++ ".bit"))
        (toolchain_flash flt products nm).2 = 1) ∧
    toolchain_flash_default_name flt products =
      toolchain_flash flt products "top" := by
  obtain ⟨cf, pf, ef, nf⟩ := flt
  cases cf <;> cases pf <;> cases ef <;> cases nf <;>
    cases h : products (nm ++ ".bit") <;>
    simp [toolchain_program, toolchain_flash,
      toolchain_flash_default_name, h, countEv, isArtifactGetAt]

/-- C8 witness. -/
theorem artifact_key_format_and_default_witness :
    countEv (isArtifactGetAt ("top" ++ ".bit"))
      (toolchain_program ⟨false, false, false, false⟩
        (fun _ => some "bits") "top").2 = 1 ∧
    countEv (isArtifactGetAt ("top" ++ ".bit"))
      (toolchain_flash ⟨false, false, false, false⟩
        (fun _ => some "bits") "top").2 = 1 ∧
    toolchain_flash_default_name ⟨false, false, false, false⟩
        (fun _ => some "bits") =
      toolchain_flash ⟨false, false, false, false⟩
        (fun _ => some "bits") "top" := by
  have h := artifact_key_format_and_default ⟨false, false, false, false⟩
    (fun _ => some "bits") "top"
  exact ⟨h.1, h.2.1 rfl, h.2.2⟩

/-- C9: every physical pin identifier appears in at most one place
across all Resource entries and all Connector pin lists of the
descriptor: the full list of pin appearances has no duplicate. -/
theorem pin_disjointness : allPins.Nodup :=
  List.Nodup.of_map pinCode (by decide)

/-- C10 counterexample: `program` on an empty artifact store performs
zero hardware-mutating calls, not exactly one as claimed for every
execution. -/
theorem program_missing_artifact_no_mutating_call :
    countEv isConfigure
      (toolchain_program ⟨false, false, false, false⟩ (fun _ => none)
        "top").2 = 0 ∧
    (toolchain_program ⟨false, false, false, false⟩ (fun _ => none)
        "top").1 ≠ Except.ok () := by
  refine ⟨by decide, ?_⟩
  intro h
  exact absurd h (by simp [toolchain_program])

/-- C10 (amended): `program` only ever touches the JTAG sub-channel
and `flash`/`erase` only the flash sub-channel; each operation
performs at most one hardware-mutating call in every execution, and
exactly one in every successful execution. -/
theorem channel_exclusivity_and_single_mutation (flt : Faults)
    (products : BuildProducts) (nm : String) :
    (countEv isAcquireFlash (toolchain_program flt products nm).2 = 0 ∧
     countEv isFlashProgram (toolchain_program flt products nm).2 = 0 ∧
     countEv isFlashErase (toolchain_program flt products nm).2 = 0 ∧
     countEv isConfigure (toolchain_program flt products nm).2 ≤ 1 ∧
     ((toolchain_program flt products nm).1 = Except.ok () →
       countEv isConfigure (toolchain_program flt products nm).2 = 1)) ∧
    (countEv isAcquireJtag (toolchain_flash flt products nm).2 = 0 ∧
     countEv isConfigure (toolchain_flash flt products nm).2 = 0 ∧
     countEv isFlashErase (toolchain_flash flt products nm).2 = 0 ∧
     countEv isFlashProgram (toolchain_flash flt products nm).2 ≤ 1 ∧
     ((toolchain_flash flt products nm).1 = Except.ok () →
       countEv isFlashProgram (toolchain_flash flt products nm).2 = 1)) ∧
    (countEv isAcquireJtag (toolchain_erase flt).2 = 0 ∧
     countEv isConfigure (toolchain_erase flt).2 = 0 ∧
     countEv isFlashProgram (toolchain_erase flt).2 = 0 ∧
     countEv isFlashErase (toolchain_erase flt).2 ≤ 1 ∧
     ((toolchain_erase flt).1 = Except.ok () →
       countEv isFlashErase (toolchain_erase flt).2 = 1)) := by
  obtain ⟨cf, pf, ef, nf⟩ := flt
  cases cf <;> cases pf <;> cases ef <;> cases nf <;>
    cases h : products (nm ++ ".bit") <;>
    simp [toolchain_program, toolchain_flash, toolchain_erase, h,
      countEv, isAcquireJtag, isAcquireFlash, isConfigure,
      isFlashProgram, isFlashErase]

/-- C10 witness. -/
theorem channel_exclusivity_and_single_mutation_witness :
    countEv isConfigure
      (toolchain_program ⟨false, false, false, false⟩
        (fun _ => some "bits") "top").2 = 1 ∧
    countEv isFlashProgram
      (toolchain_flash ⟨false, false, false, false⟩
        (fun _ => some "bits") "top").2 = 1 ∧
    countEv isFlashErase
      (toolchain_erase ⟨false, false, false, false⟩).2 = 1 := by
  have h := channel_exclusivity_and_single_mutation
    ⟨false, false, false, false⟩ (fun _ => some "bits") "top"
  exact ⟨h.1.2.2.2.2 rfl, h.2.1.2.2.2.2 rfl, h.2.2.2.2.2.2 rfl⟩

end LunaR03
